import Mathlib

/-!
Shallow embedding of the jq-rs wrapper crate (src/lib.rs, src/jq.rs,
src/errors.rs). The external libjq engine (jq-sys) is out of scope and is
modelled by its observable behavior at the FFI boundary: each engine value
(jv) is represented by what the wrapper can observe of it through the
accessors it actually calls, and one evaluation is represented by the trace
of values the engine hands back.
-/

namespace JqRs

/-- Cause held inside the string-conversion error variant of src/errors.rs:
the boxed error is downcast to NulError or Utf8Error by Error::source; any
other boxed error yields no source. -/
inductive ConvertCause where
  | nulError
  | utf8Error
  | otherCause
deriving DecidableEq

/-- Error taxonomy of the crate (src/errors.rs unified with the construction
sites in src/jq.rs). The compile-failure kind is spelled Error::Compile at
its construction site in src/jq.rs and InvalidProgram in src/errors.rs and
the spec; it carries no diagnostic at the construction site. System carries
the optional engine diagnostic (field msg in src/jq.rs, reason in
src/errors.rs). StringConvert wraps a CString/str conversion failure.
-/
inductive Error where
  | compile
  | system (msg : Option String)
  | stringConvert (err : ConvertCause)
  | unknown
deriving DecidableEq

/-- Error::source from src/errors.rs: only StringConvert exposes a cause,
and only when the boxed error downcasts to NulError or Utf8Error. -/
def Error.source : Error → Option ConvertCause
  | .stringConvert e =>
    match e with
    | .nulError => some .nulError
    | .utf8Error => some .utf8Error
    | .otherCause => none
  | _ => none

/-- ExitCode from src/jq.rs: the closed enumeration of engine halt codes. -/
inductive ExitCode where
  | JQ_OK
  | JQ_OK_NULL_KIND
  | JQ_ERROR_SYSTEM
  | JQ_ERROR_COMPILE
  | JQ_OK_NO_OUTPUT
  | JQ_ERROR_UNKNOWN
deriving DecidableEq

/-- Discriminant values of the ExitCode enumeration in src/jq.rs. -/
def ExitCode.toInt : ExitCode → Int
  | .JQ_OK => 0
  | .JQ_OK_NULL_KIND => -1
  | .JQ_ERROR_SYSTEM => 2
  | .JQ_ERROR_COMPILE => 3
  | .JQ_OK_NO_OUTPUT => -4
  | .JQ_ERROR_UNKNOWN => 5

/-- From<isize> for ExitCode in src/jq.rs: a cascade of guards comparing the
number against each discriminant, with ERROR_UNKNOWN as the default arm. -/
def ExitCode.fromInt (number : Int) : ExitCode :=
  if number = ExitCode.JQ_OK.toInt then .JQ_OK
  else if number = ExitCode.JQ_OK_NULL_KIND.toInt then .JQ_OK_NULL_KIND
  else if number = ExitCode.JQ_ERROR_SYSTEM.toInt then .JQ_ERROR_SYSTEM
  else if number = ExitCode.JQ_ERROR_COMPILE.toInt then .JQ_ERROR_COMPILE
  else if number = ExitCode.JQ_OK_NO_OUTPUT.toInt then .JQ_OK_NO_OUTPUT
  else if number = ExitCode.JQ_ERROR_UNKNOWN.toInt then .JQ_ERROR_UNKNOWN
  else .JQ_ERROR_UNKNOWN

/-- Wrapper-level view of an engine value (jv) as observed by the JV methods
the code in src/jq.rs calls on parse results and on the terminal sentinel:
is_valid (kind is not INVALID), invalid_has_msg, and the UTF-8 extraction of
the invalid-marker message (msgText is the result of get_string_value on the
message, which can fail with a Utf8Error). -/
structure JVm where
  valid : Bool
  hasMsg : Bool
  msgText : Except Unit String

/-- JV::get_msg from src/jq.rs: when the invalid marker carries a message,
format it with the prefix, substituting the text "unknown" when the message
is not valid UTF-8; otherwise yield nothing. -/
def JVm.get_msg (v : JVm) : Option String :=
  if v.hasMsg then
    some ("Parse error: " ++ (match v.msgText with | .ok s => s | .error _ => "unknown"))
  else none

/-- Parser::parse outcome from src/jq.rs, given the value pulled from the
streaming parser after the buffer is set: the valid value, or the System
error built from the invalid value, with the fallback message. -/
def parsePulled (value : JVm) : Except Error JVm :=
  if value.valid then .ok value
  else .error (.system (some (value.get_msg.getD ("Parser error"))))

/-- Wrapper-level view of the jv returned by jq_get_exit_code, as observed
through is_valid and as_number in Jq::get_exit_code. The num field is the
result of as_number (present exactly when the kind is NUMBER), with the
double already cast to isize as the code does. -/
structure ExitVal where
  valid : Bool
  num : Option Int

/-- Jq::get_exit_code from src/jq.rs: a valid exit value is treated as OK;
otherwise the numeric value is mapped through the ExitCode enumeration,
defaulting to ERROR_UNKNOWN when there is no number. -/
def get_exit_code (exit_code : ExitVal) : ExitCode :=
  if exit_code.valid then .JQ_OK
  else (exit_code.num.map ExitCode.fromInt).getD .JQ_ERROR_UNKNOWN

/-- Observable engine behavior of one evaluation after jq_start, as consumed
by dump in src/jq.rs: the as_dump_string results of the successive valid
values returned by jq_next (an error value is the Display of the Utf8Error),
the terminal invalid value that ends the pull loop, the halted flag, and the
exit-code value. -/
structure EngineTrace where
  outputs : List (Except String String)
  final : JVm
  halted : Bool
  exit : ExitVal

/-- Output-draining loop of dump in src/jq.rs: each rendered value is pushed
into the buffer followed by a newline; a string-decode failure aborts the
loop with a System error. -/
def dumpOutputs : List (Except String String) → String → Except Error String
  | [], buf => .ok buf
  | .ok s :: rest, buf => dumpOutputs rest (buf ++ s ++ "\n")
  | .error e :: _, _ => .error (.system (some ("String Decode error: " ++ e)))

/-- dump from src/jq.rs after the pull loop: when halted, classify through
the exit code; otherwise a terminal sentinel carrying a message is a System
error, and a silent sentinel is success. The buffer is returned untouched. -/
def dump (t : EngineTrace) : Except Error String :=
  match dumpOutputs t.outputs "" with
  | .error e => .error e
  | .ok buf =>
    if t.halted then
      match get_exit_code t.exit with
      | .JQ_ERROR_SYSTEM => .error (.system t.final.get_msg)
      | .JQ_ERROR_COMPILE => .error .compile
      | .JQ_OK => .ok buf
      | .JQ_OK_NULL_KIND => .ok buf
      | .JQ_OK_NO_OUTPUT => .ok buf
      | .JQ_ERROR_UNKNOWN => .error .unknown
    else
      match t.final.get_msg with
      | some reason => .error (.system (some reason))
      | none => .ok buf

/-- Jq::process from src/jq.rs: start with a fresh empty buffer, run dump,
and return the buffer on success. -/
def process (t : EngineTrace) : Except Error String :=
  dump t

/-- Observable engine behavior during one Jq::execute call: the value the
streaming parser pulls for the input, and the evaluation trace after
jq_start. -/
structure EngineBehavior where
  parsed : JVm
  trace : EngineTrace

/-- Jq::execute from src/jq.rs: parse the input, then process it. -/
def execute (b : EngineBehavior) : Except Error String :=
  match parsePulled b.parsed with
  | .error e => .error e
  | .ok _ => process b.trace

/-- Trim of Rust str::trim modelled on the character list: drop whitespace
from the front, then from the back. -/
def rustTrim (l : List Char) : List Char :=
  ((l.dropWhile Char.isWhitespace).reverse.dropWhile Char.isWhitespace).reverse

/-- The test data.trim().is_empty() from JqProgram::run in src/lib.rs. -/
def trimIsEmpty (data : String) : Bool :=
  (rustTrim data.toList).isEmpty

/-- Whether the text contains a NUL character; CString::new fails exactly on
such texts. -/
def hasNul (s : String) : Bool :=
  s.toList.any (fun c => c = Char.ofNat 0)

/-- CString::new as used in src/lib.rs: an interior NUL yields a NulError,
converted by the From impl in src/errors.rs into the StringConvert variant. -/
def cstringNew (s : String) : Except Error Unit :=
  if hasNul s then .error (.stringConvert .nulError) else .ok ()

/-- JqProgram::run from src/lib.rs: empty or whitespace-only input
short-circuits to an empty success before any engine call; otherwise the
input is converted to a CString and handed to Jq::execute. The engine
argument is the engine behavior observed during this call. -/
def JqProgram.run (engine : EngineBehavior) (data : String) : Except Error String :=
  if trimIsEmpty data then .ok ""
  else
    match cstringNew data with
    | .error e => .error e
    | .ok _ => execute engine

/-- Observable engine behavior during compilation: whether jq_init returned
a usable (non-null) state, and whether jq_compile succeeded (nonzero). -/
structure CompileEnv where
  initOk : Bool
  compileOk : Bool

/-- Jq::compile_program from src/jq.rs: a null state from jq_init fails with
the System error, a failing jq_compile fails with the compile-error kind. -/
def compile_program (env : CompileEnv) : Except Error Unit :=
  if env.initOk = false then .error (.system (some ("Failed to init")))
  else if env.compileOk = false then .error .compile
  else .ok ()

/-- compile from src/lib.rs: convert the program text to a CString, then
compile it. -/
def compile (env : CompileEnv) (program : String) : Except Error Unit :=
  match cstringNew program with
  | .error e => .error e
  | .ok _ => compile_program env

/-- run from src/lib.rs: compile the program, then run the data against it. -/
def run (env : CompileEnv) (engine : EngineBehavior) (program data : String) :
    Except Error String :=
  match compile env program with
  | .error e => .error e
  | .ok _ => JqProgram.run engine data

/-- Rendering of a list of output values as dump accumulates them: each
value followed by a newline. -/
def renderLines : List String → String
  | [] => ""
  | s :: rest => s ++ "\n" ++ renderLines rest


/-- Engine trace of the repository test unpack_array: evaluating the filter
.[] over the input [1,2,3], the engine emits the values 1, 2 and 3, then
ends the loop with a silent invalid sentinel, not halted. -/
def traceOneTwoThree : EngineTrace :=
  { outputs := [.ok ("1"), .ok ("2"), .ok ("3")]
    final := { valid := false, hasMsg := false, msgText := .ok ("") }
    halted := false
    exit := { valid := false, num := none } }

/-- Engine behavior for the same scenario: the input parses to a valid value
and evaluation follows traceOneTwoThree. -/
def engineOneTwoThree : EngineBehavior :=
  { parsed := { valid := true, hasMsg := false, msgText := .ok ("") }
    trace := traceOneTwoThree }

/-- Draining a list of outputs that all render adds each rendered value plus
a newline to the accumulator. -/
theorem dumpOutputs_map_ok (outs : List String) :
    ∀ acc, dumpOutputs (outs.map Except.ok) acc = .ok (acc ++ renderLines outs) := by
  induction outs with
  | nil => intro acc; simp [dumpOutputs, renderLines, String.append_empty]
  | cons s rest ih =>
    intro acc
    simp only [List.map_cons, dumpOutputs, renderLines]
    rw [ih (acc ++ s ++ "\n")]
    simp [String.append_assoc]

/-- A decode failure in the drain loop yields the System error built from
the Utf8Error alone, whatever was accumulated before it. -/
theorem dumpOutputs_decode_error (pre : List String) (e : String)
    (rest : List (Except String String)) :
    ∀ acc, dumpOutputs (pre.map Except.ok ++ Except.error e :: rest) acc =
      .error (.system (some ("String Decode error: " ++ e))) := by
  induction pre with
  | nil => intro acc; simp [dumpOutputs]
  | cons s l ih =>
    intro acc
    simp only [List.map_cons, List.cons_append, dumpOutputs]
    exact ih _

/-- Inversion: a successful drain means every pulled value rendered, and the
result is the accumulator followed by each rendered value plus a newline. -/
theorem dumpOutputs_ok_inv :
    ∀ (l : List (Except String String)) (acc s : String),
      dumpOutputs l acc = .ok s →
      ∃ outs, l = outs.map Except.ok ∧ s = acc ++ renderLines outs := by
  intro l
  induction l with
  | nil =>
    intro acc s h
    simp [dumpOutputs] at h
    exact ⟨[], rfl, by simp [renderLines, String.append_empty, h]⟩
  | cons hd tl ih =>
    intro acc s h
    cases hd with
    | ok v =>
      simp only [dumpOutputs] at h
      obtain ⟨outs, houts, hs⟩ := ih _ _ h
      refine ⟨v :: outs, by rw [houts]; rfl, ?_⟩
      simp [renderLines, hs, String.append_assoc]
    | error e => simp [dumpOutputs] at h

/-- An element that does not satisfy the predicate survives dropWhile. -/
theorem mem_dropWhile_of_not {α : Type} (p : α → Bool) (c : α) :
    ∀ l : List α, c ∈ l → p c = false → c ∈ l.dropWhile p := by
  intro l
  induction l with
  | nil => intro h _; exact absurd h (List.not_mem_nil c)
  | cons a t ih =>
    intro hmem hpc
    by_cases hpa : p a = true
    · rw [List.dropWhile]
      rw [hpa]
      rcases List.mem_cons.mp hmem with rfl | hm
      · rw [hpa] at hpc; exact absurd hpc (by simp)
      · exact ih hm hpc
    · rw [List.dropWhile]
      rw [Bool.not_eq_true] at hpa
      rw [hpa]
      exact hmem

/-- A text containing a NUL character is never whitespace-only: NUL is not
whitespace, so it survives the trim. -/
theorem hasNul_trimIsEmpty_false (s : String) (h : hasNul s = true) :
    trimIsEmpty s = false := by
  unfold hasNul at h
  rw [List.any_eq_true] at h
  obtain ⟨c, hc, hceq⟩ := h
  have hcz : c = Char.ofNat 0 := of_decide_eq_true hceq
  have hw : c.isWhitespace = false := by rw [hcz]; decide
  have h1 : c ∈ s.toList.dropWhile Char.isWhitespace :=
    mem_dropWhile_of_not _ c _ hc hw
  have h2 : c ∈ (s.toList.dropWhile Char.isWhitespace).reverse :=
    List.mem_reverse.mpr h1
  have h3 : c ∈ (s.toList.dropWhile Char.isWhitespace).reverse.dropWhile Char.isWhitespace :=
    mem_dropWhile_of_not _ c _ h2 hw
  have h4 : c ∈ rustTrim s.toList := List.mem_reverse.mpr h3
  unfold trimIsEmpty
  cases htr : rustTrim s.toList with
  | nil => rw [htr] at h4; exact absurd h4 (List.not_mem_nil c)
  | cons a t => rfl


/-- C1 counterexample: on the engine behavior of run with filter .[] over
input [1,2,3], the code returns the buffer with its trailing newline kept,
so the result is not the newline-joined form with the separator trimmed
that the claim states. The repository test unpack_array expects exactly
this trailing newline. -/
theorem run_output_trailing_newline_cex :
    run ⟨true, true⟩ engineOneTwoThree (".[]") ("[1,2,3]") = .ok ("1\n2\n3\n") ∧
      ("1\n2\n3\n" : String) ≠ "1\n2\n3" :=
  ⟨rfl, by decide⟩

/-- C1 (amended): for every successful evaluation (all outputs render, the
machine has not halted, the terminal sentinel carries no message), the
returned string is the emitted outputs in emission order, each followed by a
newline; the trailing separator is kept, not trimmed. -/
theorem process_renders_each_output_with_newline (outs : List String) (t : EngineTrace)
    (houts : t.outputs = outs.map Except.ok)
    (hh : t.halted = false) (hm : t.final.hasMsg = false) :
    process t = .ok (renderLines outs) := by
  unfold process dump
  rw [houts, dumpOutputs_map_ok outs ""]
  simp [hh, JVm.get_msg, hm, String.empty_append]

/-- C1 witness: the amended statement evaluated on the trace of run with
filter .[] over input [1,2,3]. -/
theorem process_renders_each_output_with_newline_witness :
    process traceOneTwoThree = .ok (renderLines ["1", "2", "3"]) :=
  process_renders_each_output_with_newline ["1", "2", "3"] traceOneTwoThree rfl rfl rfl

/-- C2: for every compiled program and every input that is empty or
whitespace-only, JqProgram::run returns the empty success result, for every
possible engine behavior, hence before and independent of any engine call;
never an error. -/
theorem run_whitespace_short_circuit (engine : EngineBehavior) (data : String)
    (h : trimIsEmpty data = true) :
    JqProgram.run engine data = .ok ("") := by
  simp [JqProgram.run, h]

/-- C2 witness: run on a concrete whitespace-only input. -/
theorem run_whitespace_short_circuit_witness :
    JqProgram.run ⟨⟨true, false, .ok ("")⟩, ⟨[], ⟨false, false, .ok ("")⟩, false, ⟨false, none⟩⟩⟩
      (" \t\n") = .ok ("") :=
  run_whitespace_short_circuit _ (" \t\n") (by decide)

/-- C3 counterexample: when initialization yields no usable state the code
returns the System message "Failed to init" with a capital F, not the
"failed to init" stated by the claim. -/
theorem compile_init_message_cex :
    compile_program ⟨false, true⟩ = .error (.system (some ("Failed to init"))) ∧
      ("Failed to init" : String) ≠ "failed to init" :=
  ⟨rfl, by decide⟩

/-- C3 (amended): compile fails with a System error carrying the message
"Failed to init" when engine initialization yields no usable state, and
fails with the compile-error kind (InvalidProgram in the errors module, no
diagnostic supplied) when compilation of the source text fails; with a
failing compilation the one-shot run also fails with that kind regardless
of the input. -/
theorem compile_failure_classification (env : CompileEnv) (engine : EngineBehavior)
    (program data : String) (hnul : hasNul program = false) :
    (env.initOk = false →
      compile env program = .error (.system (some ("Failed to init")))) ∧
    (env.initOk = true → env.compileOk = false →
      compile env program = .error .compile) ∧
    (env.initOk = true → env.compileOk = false →
      run env engine program data = .error .compile) := by
  refine ⟨fun h1 => ?_, fun h1 h2 => ?_, fun h1 h2 => ?_⟩
  · simp [compile, cstringNew, compile_program, hnul, h1]
  · simp [compile, cstringNew, compile_program, hnul, h1, h2]
  · simp [run, compile, cstringNew, compile_program, hnul, h1, h2]

/-- C3 witness: a failing compilation on a concrete program text. -/
theorem compile_failure_classification_witness :
    compile ⟨true, false⟩ ("bogus") = .error .compile :=
  (compile_failure_classification ⟨true, false⟩
      ⟨⟨true, false, .ok ("")⟩, ⟨[], ⟨false, false, .ok ("")⟩, false, ⟨false, none⟩⟩⟩
      ("bogus") ("x") (by decide)).2.1 rfl rfl

/-- C4 counterexample: when the invalid marker carries no message the code
falls back to "Parser error" with a capital P, not the "parser error"
stated by the claim. -/
theorem parse_fallback_message_cex :
    parsePulled ⟨false, false, .ok ("")⟩ = .error (.system (some ("Parser error"))) ∧
      ("Parser error" : String) ≠ "parser error" :=
  ⟨rfl, by decide⟩

/-- C4 (amended): for every input whose parse produces an invalid value,
Parser::parse returns a System error whose message is extracted from the
invalid marker (prefixed, with "unknown" substituted for non-UTF-8), and
falls back to the generic string "Parser error" when the marker carries no
message; the classification is total, so it never panics. -/
theorem parse_invalid_yields_system (v : JVm) (h : v.valid = false) :
    (∀ s, v.hasMsg = true → v.msgText = .ok s →
      parsePulled v = .error (.system (some ("Parse error: " ++ s)))) ∧
    (∀ u : Unit, v.hasMsg = true → v.msgText = .error u →
      parsePulled v = .error (.system (some ("Parse error: " ++ "unknown")))) ∧
    (v.hasMsg = false →
      parsePulled v = .error (.system (some ("Parser error")))) := by
  refine ⟨fun s h1 h2 => ?_, fun u h1 h2 => ?_, fun h1 => ?_⟩
  · simp [parsePulled, JVm.get_msg, h, h1, h2]
  · simp [parsePulled, JVm.get_msg, h, h1, h2]
  · simp [parsePulled, JVm.get_msg, h, h1]

/-- C4 witness: a marker with a non-UTF-8 message. -/
theorem parse_invalid_yields_system_witness :
    parsePulled ⟨false, true, .error ()⟩ =
      .error (.system (some ("Parse error: " ++ "unknown"))) :=
  (parse_invalid_yields_system ⟨false, true, .error ()⟩ rfl).2.1 () rfl rfl

/-- C5: after output exhaustion with the machine halted, an exit-code value
that reads as valid is treated as OK; otherwise its numeric value is mapped
through the ExitCode enumeration: ERROR_SYSTEM yields a System error
carrying the terminal sentinel message, ERROR_COMPILE the compile-error
kind, ERROR_UNKNOWN the Unknown error, and OK, OK_NULL and OK_NO_OUTPUT
all yield success with the buffer. -/
theorem halted_exit_code_classification (t : EngineTrace) (buf : String)
    (hbuf : dumpOutputs t.outputs "" = .ok buf) (hh : t.halted = true) :
    (t.exit.valid = true → process t = .ok buf) ∧
    (get_exit_code t.exit = .JQ_ERROR_SYSTEM →
      process t = .error (.system t.final.get_msg)) ∧
    (get_exit_code t.exit = .JQ_ERROR_COMPILE → process t = .error .compile) ∧
    (get_exit_code t.exit = .JQ_ERROR_UNKNOWN → process t = .error .unknown) ∧
    ((get_exit_code t.exit = .JQ_OK ∨ get_exit_code t.exit = .JQ_OK_NULL_KIND ∨
        get_exit_code t.exit = .JQ_OK_NO_OUTPUT) → process t = .ok buf) := by
  refine ⟨fun hv => ?_, fun he => ?_, fun he => ?_, fun he => ?_, fun he => ?_⟩
  · have hx : get_exit_code t.exit = .JQ_OK := by simp [get_exit_code, hv]
    simp [process, dump, hbuf, hh, hx]
  · simp [process, dump, hbuf, hh, he]
  · simp [process, dump, hbuf, hh, he]
  · simp [process, dump, hbuf, hh, he]
  · rcases he with he | he | he <;> simp [process, dump, hbuf, hh, he]

/-- C5 witness: a halted machine with numeric exit code 2 yields the System
error carrying the sentinel message. -/
theorem halted_exit_code_classification_witness :
    process ⟨[], ⟨false, true, .ok ("boom")⟩, true, ⟨false, some 2⟩⟩ =
      .error (.system (some ("Parse error: boom"))) :=
  (halted_exit_code_classification ⟨[], ⟨false, true, .ok ("boom")⟩, true, ⟨false, some 2⟩⟩
      ("") rfl rfl).2.1 rfl

/-- C6: the ExitCode conversion from a signed number is total: each of the
six recognized codes 0, -1, 2, 3, -4, 5 maps to its own variant, and every
other integer maps to ERROR_UNKNOWN. -/
theorem exitCode_fromInt_total (n : Int)
    (h : n ≠ 0 ∧ n ≠ -1 ∧ n ≠ 2 ∧ n ≠ 3 ∧ n ≠ -4 ∧ n ≠ 5) :
    ExitCode.fromInt 0 = .JQ_OK ∧
    ExitCode.fromInt (-1) = .JQ_OK_NULL_KIND ∧
    ExitCode.fromInt 2 = .JQ_ERROR_SYSTEM ∧
    ExitCode.fromInt 3 = .JQ_ERROR_COMPILE ∧
    ExitCode.fromInt (-4) = .JQ_OK_NO_OUTPUT ∧
    ExitCode.fromInt 5 = .JQ_ERROR_UNKNOWN ∧
    ExitCode.fromInt n = .JQ_ERROR_UNKNOWN := by
  obtain ⟨h0, h1, h2, h3, h4, h5⟩ := h
  refine ⟨rfl, rfl, rfl, rfl, rfl, rfl, ?_⟩
  simp [ExitCode.fromInt, ExitCode.toInt, h0, h1, h2, h3, h4, h5]

/-- C6 witness: the unrecognized code 7 maps to ERROR_UNKNOWN. -/
theorem exitCode_fromInt_total_witness :
    ExitCode.fromInt 7 = .JQ_ERROR_UNKNOWN :=
  (exitCode_fromInt_total 7 (by decide)).2.2.2.2.2.2

/-- C7: for all program and input pairs, the one-shot run is the monadic
composition of compile with JqProgram::run, hence returns the same Ok value
or the same error. -/
theorem run_once_equiv_compile_then_run (env : CompileEnv) (engine : EngineBehavior)
    (program data : String) :
    run env engine program data =
      Except.bind (compile env program) (fun _ => JqProgram.run engine data) := by
  unfold run
  cases h : compile env program <;> simp [Except.bind]

/-- C8: a run yields either the complete rendering of all emitted outputs or
an error, never both: every successful result is the rendering of the whole
output list, and on a failure inside the drain loop the accumulated buffer
is discarded, the error being independent of everything rendered before the
failure. Each call builds its buffer from the empty string, so no residual
buffer state flows into a later call. -/
theorem run_complete_or_buffer_discarded (t : EngineTrace) :
    (∀ s, process t = .ok s →
      ∃ outs, t.outputs = outs.map Except.ok ∧ s = renderLines outs) ∧
    (∀ (pre : List String) (e : String) (rest : List (Except String String)),
      t.outputs = pre.map Except.ok ++ Except.error e :: rest →
      process t = .error (.system (some ("String Decode error: " ++ e)))) := by
  constructor
  · intro s hs
    unfold process dump at hs
    split at hs
    next e heq => exact absurd hs (by simp)
    next buf heq =>
      obtain ⟨outs, houts, hbuf⟩ := dumpOutputs_ok_inv t.outputs "" buf heq
      refine ⟨outs, houts, ?_⟩
      have hsb : buf = s := by
        split at hs
        · split at hs <;> simp_all
        · split at hs <;> simp_all
      rw [← hsb, hbuf, String.empty_append]
  · intro pre e rest hout
    unfold process dump
    rw [hout, dumpOutputs_decode_error pre e rest ""]

/-- C8 witness: a decode failure after one rendered output produces the
decode error alone, with no trace of the rendered output. -/
theorem run_complete_or_buffer_discarded_witness :
    process ⟨[.ok ("1"), .error ("bad")], ⟨false, false, .ok ("")⟩, false, ⟨false, none⟩⟩ =
      .error (.system (some ("String Decode error: " ++ "bad"))) :=
  (run_complete_or_buffer_discarded _).2 ["1"] ("bad") [] rfl

/-- C9: program or input text containing an interior NUL fails with the
StringConvert variant (StringConversion in the spec), and the source chain
of that variant exposes the underlying NulError or Utf8Error as its cause. -/
theorem nul_text_string_convert (env : CompileEnv) (engine : EngineBehavior)
    (program data : String) (hp : hasNul program = true) (hd : hasNul data = true) :
    compile env program = .error (.stringConvert .nulError) ∧
    JqProgram.run engine data = .error (.stringConvert .nulError) ∧
    Error.source (.stringConvert .nulError) = some .nulError ∧
    Error.source (.stringConvert .utf8Error) = some .utf8Error := by
  refine ⟨?_, ?_, rfl, rfl⟩
  · simp [compile, cstringNew, hp]
  · have htr := hasNul_trimIsEmpty_false data hd
    simp [JqProgram.run, htr, cstringNew, hd]

/-- C9 witness: compiling a program text with an embedded NUL. -/
theorem nul_text_string_convert_witness :
    compile ⟨true, true⟩ ("a\x00b") = .error (.stringConvert .nulError) :=
  (nul_text_string_convert ⟨true, true⟩
      ⟨⟨true, false, .ok ("")⟩, ⟨[], ⟨false, false, .ok ("")⟩, false, ⟨false, none⟩⟩⟩
      ("a\x00b") ("\x00") (by decide) (by decide)).1

/-- C10: every diagnostic message extracted from an invalid marker is
prefixed with the literal text "Parse error: ", with "unknown" substituted
when the marker message is not valid UTF-8; both parse failures and
non-halted runtime failures place exactly this extracted message in the
resulting System error. -/
theorem invalid_marker_message_prefixed (v : JVm) (t : EngineTrace) (buf : String)
    (hv : v.hasMsg = true) (hbuf : dumpOutputs t.outputs "" = .ok buf)
    (hh : t.halted = false) (hm : t.final.hasMsg = true) :
    (∀ s, v.msgText = .ok s → v.get_msg = some ("Parse error: " ++ s)) ∧
    (∀ u : Unit, v.msgText = .error u → v.get_msg = some ("Parse error: " ++ "unknown")) ∧
    (v.valid = false → parsePulled v = .error (.system v.get_msg)) ∧
    (process t = .error (.system t.final.get_msg)) := by
  refine ⟨fun s h2 => ?_, fun u h2 => ?_, fun hval => ?_, ?_⟩
  · simp [JVm.get_msg, hv, h2]
  · simp [JVm.get_msg, hv, h2]
  · simp [parsePulled, JVm.get_msg, hv, hval]
  · simp [process, dump, hbuf, hh, JVm.get_msg, hm]

/-- C10 witness: the prefixed message with the "unknown" substitution. -/
theorem invalid_marker_message_prefixed_witness :
    JVm.get_msg ⟨false, true, .error ()⟩ = some ("Parse error: " ++ "unknown") :=
  (invalid_marker_message_prefixed ⟨false, true, .error ()⟩
      ⟨[], ⟨false, true, .ok ("m")⟩, false, ⟨false, none⟩⟩ ("") rfl rfl rfl rfl).2.1 () rfl

end JqRs
